import Mathlib

/-!
Verification of the httpexpect response-assertion core.

The repository ships a fluent assertion DSL over HTTP responses: a
`Response` wraps a raw HTTP response together with a failure chain, and
produces typed wrappers (headers map, body string, decoded JSON tree),
each carrying a clone of the chain.  The implementation files
(`chain.go`, `response.go`) are not present in the source tree; only
`response_test.go` is.  All operational definitions below are therefore
modelled from the specification, and each such definition says so in its
doc comment.  The Go reporter side effect is modelled by a per-chain list
of reported messages; the drain-once behavior of the body stream is modelled
by an explicit `consumed` flag and state-passing operations.
-/

/-- Modelled from the spec: the missing `chain.go` failure state.
`{ reporter, failed }`; here the reporter is represented by the list of
messages it has received through this chain. -/
structure Chain where
  failed : Bool
  reports : List String
deriving Repr, DecidableEq

/-- Modelled from the spec: `fail(message)` records `failed = true` and
invokes `reporter.report(message)` unconditionally, even when the chain
had already failed. -/
def Chain.fail (c : Chain) (msg : String) : Chain :=
  { failed := true, reports := c.reports ++ [msg] }

/-- Modelled from the spec: `isFailed()` is a pure query of the flag. -/
def Chain.isFailed (c : Chain) : Bool :=
  c.failed

/-- Modelled from the spec: `clone()` returns a new state with the same
reporter and `failed = source.failed`; later failures on the source do
not retroactively reach the clone. -/
def Chain.clone (c : Chain) : Chain :=
  { failed := c.failed, reports := c.reports }

/-- Modelled from the spec: the test-only `reset()` clears the flag. -/
def Chain.reset (c : Chain) : Chain :=
  { c with failed := false }

/-- Modelled from the spec: `makeChain(reporter)` builds a fresh,
unfailed chain. -/
def makeChain : Chain :=
  { failed := false, reports := [] }

/-- The raw body stream: its bytes decoded as text, plus whether it has
already been drained.  A drained stream yields no further data. -/
structure BodyStream where
  data : String
  consumed : Bool
deriving Repr, DecidableEq

/-- The raw HTTP response record the core consumes: status code, ordered
header multimap, and an optional (possibly nil) body stream. -/
structure RawResponse where
  statusCode : Int
  headers : List (String × List String)
  body : Option BodyStream
deriving Repr, DecidableEq

/-- Modelled from the spec: the missing `response.go` `Response` record:
failure chain, optional raw response, and the body text cache (`none`
until the stream is first drained). -/
structure Response where
  chain : Chain
  raw : Option RawResponse
  content : Option String
deriving Repr, DecidableEq

/-- Modelled from the spec: `NewResponse(reporter, raw)` wraps a raw
response with a fresh chain and an empty body cache. -/
def NewResponse (raw : Option RawResponse) : Response :=
  { chain := makeChain, raw := raw, content := none }

/-- ASCII lowercasing of one character (header names and charset values
are ASCII in HTTP). -/
def lowerChar (c : Char) : Char :=
  if 65 ≤ c.toNat ∧ c.toNat ≤ 90 then Char.ofNat (c.toNat + 32) else c

/-- ASCII lowercasing of a string. -/
def lowerStr (s : String) : String :=
  String.mk (s.data.map lowerChar)

/-- ASCII whitespace test, as used when trimming content-type parts. -/
def isSpaceChar (c : Char) : Bool :=
  c = ' ' || c = '\t' || c = '\n' || c = '\r'

/-- Trim ASCII whitespace from both ends of a character list. -/
def trimChars (l : List Char) : List Char :=
  ((l.dropWhile isSpaceChar).reverse.dropWhile isSpaceChar).reverse

/-- Split a character list on a separator character (every occurrence,
as in the Go standard library `strings.Split`). -/
def splitOnCharAux (sep : Char) : List Char → List Char → List (List Char)
  | [], acc => [acc.reverse]
  | c :: cs, acc =>
    if c = sep then acc.reverse :: splitOnCharAux sep cs []
    else splitOnCharAux sep cs (c :: acc)

/-- Split a character list on a separator character. -/
def splitOnChar (sep : Char) (l : List Char) : List (List Char) :=
  splitOnCharAux sep l []

/-- Modelled from the spec: first value of a header, looked up
case-insensitively per HTTP header semantics; empty string when the
header is absent or has no values. -/
def headerGet (raw : Option RawResponse) (name : String) : String :=
  match raw with
  | none => ""
  | some rr =>
    match rr.headers.find? (fun p => lowerStr p.1 == lowerStr name) with
    | some (_, v :: _) => v
    | _ => ""

/-- A scalar string wrapper (used for `Body()` and `Header(name)`):
the underlying text plus its own failure chain. -/
structure StringWrapper where
  chain : Chain
  raw : String
deriving Repr, DecidableEq

/-- Modelled from the spec: string `Equal(expected)`: checks the stored
text against `expected`; on mismatch fails the chain; an inherited
failure short-circuits the check; returns the wrapper for chaining. -/
def StringWrapper.Equal (w : StringWrapper) (expected : String) : StringWrapper :=
  if w.chain.failed then w
  else if w.raw = expected then w
  else { w with chain := w.chain.fail ("expected string " ++ expected ++ ", got " ++ w.raw) }

/-- Modelled from the spec: string `Empty()`: asserts `raw == ""`. -/
def StringWrapper.Empty (w : StringWrapper) : StringWrapper :=
  if w.chain.failed then w
  else if w.raw = "" then w
  else { w with chain := w.chain.fail ("expected empty string, got " ++ w.raw) }

/-- The header mapping wrapper: the raw header multimap plus its own
failure chain. -/
structure HeadersWrapper where
  chain : Chain
  raw : List (String × List String)
deriving Repr, DecidableEq

/-- Modelled from the spec: headers `Equal(expected)`: deep equality of
the multimap, value order within a key compared positionally; on
mismatch fails the chain; returns the wrapper for chaining. -/
def HeadersWrapper.Equal (w : HeadersWrapper) (expected : List (String × List String)) : HeadersWrapper :=
  if w.chain.failed then w
  else if w.raw = expected then w
  else { w with chain := w.chain.fail "headers mismatch" }

/-- The generic JSON tree the external decoder produces: nested
objects, arrays, strings, numbers, booleans and null. -/
inductive JSONValue where
  | null : JSONValue
  | bool (b : Bool) : JSONValue
  | num (n : Int) : JSONValue
  | str (s : String) : JSONValue
  | arr (xs : List JSONValue) : JSONValue
  | obj (fs : List (String × JSONValue)) : JSONValue

/-- The kind of text → tree functions the external JSON decode
capability provides: `none` is a decode error. -/
def JSONDecoder : Type :=
  String → Option JSONValue

/-- The JSON tree wrapper: `none` is the absent/invalid sentinel
returned by `Raw()` when decoding or a precondition failed. -/
structure JSONWrapper where
  chain : Chain
  raw : Option JSONValue

/-- Modelled from the spec: the `ContentTypeJSON()` parsing rule: split
the header value on `;`, trim whitespace, compare the media type
case-sensitively to exactly `application/json`; a `charset` parameter,
when present, must case-insensitively equal `utf-8`. -/
def checkJSONContentType (ct : String) : Bool :=
  let parts := (splitOnChar ';' ct.data).map trimChars
  let media := parts.headD []
  let charset := (parts.drop 1).findSome? fun p =>
    if "charset=".data.isPrefixOf (p.map lowerChar) then
      some (trimChars (p.drop 8))
    else none
  media == "application/json".data &&
    match charset with
    | none => true
    | some c => c.map lowerChar == "utf-8".data

/-- Modelled from the spec: drain-once body access.  Returns the cached
body text, reading the underlying stream on first use only: a nil
response or nil stream yields the empty string; a drained stream yields
no further data.  The updated response carries the cache. -/
def Response.getContent (r : Response) : Response × String :=
  match r.content with
  | some s => (r, s)
  | none =>
    match r.raw with
    | none => ({ r with content := some "" }, "")
    | some rr =>
      match rr.body with
      | none => ({ r with content := some "" }, "")
      | some st =>
        let text := if st.consumed then "" else st.data
        let rr2 := { rr with body := some { st with consumed := true } }
        ({ r with raw := some rr2, content := some text }, text)

/-- Modelled from the spec: `Status(expected)` compares the raw status
code and fails the chain on mismatch; an already-failed chain
short-circuits; no side effect beyond the chain failure. -/
def Response.Status (r : Response) (expected : Int) : Response :=
  if r.chain.failed then r
  else
    match r.raw with
    | none => r
    | some rr =>
      if expected = rr.statusCode then r
      else { r with chain := r.chain.fail ("expected status " ++ toString expected ++ ", got " ++ toString rr.statusCode) }

/-- Modelled from the spec: `Headers()` returns a mapping wrapper over
the raw header multimap with a clone of the chain of the response; when the
chain has already failed, the raw response is not touched and the
wrapper holds the zero-value map. -/
def Response.Headers (r : Response) : HeadersWrapper :=
  if r.chain.failed then { chain := r.chain.clone, raw := [] }
  else { chain := r.chain.clone, raw := (r.raw.map RawResponse.headers).getD [] }

/-- Modelled from the spec: `Header(name)` returns a string wrapper over
the first value of that header (case-insensitive lookup, empty string
when absent; absence is not a failure) with a clone of the chain; when
the chain has already failed the raw response is not touched. -/
def Response.Header (r : Response) (name : String) : StringWrapper :=
  if r.chain.failed then { chain := r.chain.clone, raw := "" }
  else { chain := r.chain.clone, raw := headerGet r.raw name }

/-- Modelled from the spec: `Body()` returns a string wrapper over the
body text, draining and caching the stream at most once; when the chain
has already failed the stream is not touched and the wrapper holds the
empty string. -/
def Response.Body (r : Response) : Response × StringWrapper :=
  if r.chain.failed then (r, { chain := r.chain.clone, raw := "" })
  else
    let (r2, text) := r.getContent
    (r2, { chain := r2.chain.clone, raw := text })

/-- Modelled from the spec: `NoContent()` asserts the cached body text
is empty and the `Content-Type` header is absent or empty, failing the
chain otherwise; an already-failed chain short-circuits. -/
def Response.NoContent (r : Response) : Response :=
  if r.chain.failed then r
  else
    let ct := headerGet r.raw "Content-Type"
    let (r2, text) := r.getContent
    if ct = "" then
      if text = "" then r2
      else { r2 with chain := r2.chain.fail ("expected empty body, got " ++ text) }
    else { r2 with chain := r2.chain.fail ("expected no content type, got " ++ ct) }

/-- Modelled from the spec: `ContentTypeJSON()` asserts the
`Content-Type` header passes `checkJSONContentType`, failing the chain
otherwise; an already-failed chain short-circuits. -/
def Response.ContentTypeJSON (r : Response) : Response :=
  if r.chain.failed then r
  else
    let ct := headerGet r.raw "Content-Type"
    if checkJSONContentType ct then r
    else { r with chain := r.chain.fail ("unexpected content type: " ++ ct) }

/-- Modelled from the spec: `JSON()` requires the content-type check to
hold and the cached body to decode as valid JSON; on any violation it
fails the chain and returns a wrapper whose raw tree is the absent
sentinel; on success the wrapper holds the decoded tree.  The decoder is
the external JSON decode capability. -/
def Response.JSON (r : Response) (decode : JSONDecoder) : Response × JSONWrapper :=
  if r.chain.failed then (r, { chain := r.chain.clone, raw := none })
  else
    let ct := headerGet r.raw "Content-Type"
    if checkJSONContentType ct then
      let (r2, text) := r.getContent
      match decode text with
      | some v => (r2, { chain := r2.chain.clone, raw := some v })
      | none =>
        let c := r2.chain.fail "invalid json body"
        ({ r2 with chain := c }, { chain := c.clone, raw := none })
    else
      let c := r.chain.fail ("unexpected content type: " ++ ct)
      ({ r with chain := c }, { chain := c.clone, raw := none })

/-! Helper lemmas about the body cache. -/

/-- Draining the body never touches the failure chain. -/
theorem getContent_chain (r : Response) : (r.getContent).1.chain = r.chain := by
  unfold Response.getContent
  rcases h : r.content with _ | s
  · rcases hr : r.raw with _ | rr
    · simp
    · rcases hb : rr.body with _ | st <;> simp [hb]
  · simp

/-- After draining, the body text is cached. -/
theorem getContent_content (r : Response) :
    (r.getContent).1.content = some (r.getContent).2 := by
  unfold Response.getContent
  rcases h : r.content with _ | s
  · rcases hr : r.raw with _ | rr
    · simp
    · rcases hb : rr.body with _ | st <;> simp [hb]
  · simp [h]

/-- A cached body is returned as-is, with no state change. -/
theorem getContent_cached (r : Response) (s : String) (h : r.content = some s) :
    r.getContent = (r, s) := by
  unfold Response.getContent
  simp [h]

/-- Draining twice is the same as draining once. -/
theorem getContent_idem (r : Response) :
    (r.getContent).1.getContent = r.getContent := by
  rw [getContent_cached (r.getContent).1 (r.getContent).2 (getContent_content r)]

/-- C9: `fail(message)` sets the failed flag to true and delivers the
message to the reporter unconditionally — the reported list grows by
exactly that message even when the chain was already failed — and the
failure is observable through `isFailed()`; no exceptional control flow
exists, the call always returns the updated chain. -/
theorem chain_fail_sets_flag_and_reports (c : Chain) (m : String) :
    (c.fail m).isFailed = true ∧ (c.fail m).reports = c.reports ++ [m] := by
  simp [Chain.fail, Chain.isFailed]

/-- C5: for an unfailed response wrapping a raw response, `Status(s)`
marks the chain failed iff `s` differs from the raw status code, leaves
the raw response and body cache untouched, and is the identity when the
codes agree. -/
theorem status_fails_iff_mismatch (r : Response) (rr : RawResponse) (s : Int)
    (h : r.chain.failed = false) (hr : r.raw = some rr) :
    ((r.Status s).chain.isFailed = true ↔ s ≠ rr.statusCode) ∧
    (r.Status s).raw = r.raw ∧
    (r.Status s).content = r.content ∧
    (s = rr.statusCode → r.Status s = r) := by
  unfold Response.Status
  by_cases he : s = rr.statusCode <;>
    simp [h, hr, he, Chain.isFailed, Chain.fail]

/-- Closed instance of `status_fails_iff_mismatch`: a fresh response
with status 200 fails `Status 404` and passes `Status 200`. -/
theorem status_fails_iff_mismatch_witness :
    (Response.Status (NewResponse (some { statusCode := 200, headers := [], body := none })) 404).chain.isFailed = true ∧
    (Response.Status (NewResponse (some { statusCode := 200, headers := [], body := none })) 404).raw = (NewResponse (some { statusCode := 200, headers := [], body := none })).raw ∧
    (Response.Status (NewResponse (some { statusCode := 200, headers := [], body := none })) 404).content = (NewResponse (some { statusCode := 200, headers := [], body := none })).content ∧
    Response.Status (NewResponse (some { statusCode := 200, headers := [], body := none })) 200 = NewResponse (some { statusCode := 200, headers := [], body := none }) := by
  have h1 := status_fails_iff_mismatch (NewResponse (some { statusCode := 200, headers := [], body := none }))
    { statusCode := 200, headers := [], body := none } 404 rfl rfl
  have h2 := status_fails_iff_mismatch (NewResponse (some { statusCode := 200, headers := [], body := none }))
    { statusCode := 200, headers := [], body := none } 200 rfl rfl
  exact ⟨h1.1.mpr (by decide), h1.2.1, h1.2.2.1, h2.2.2.2 rfl⟩

/-- C1: the wrappers returned by `Headers()`, `Header(name)`, `Body()`
carry exactly the failure flag of the parent at the moment of derivation, an
already-failed parent yields an immediately-failed `JSON()` wrapper, and
failure is inherited at creation time only: deriving from an unfailed
parent yields an unfailed wrapper, while deriving after the parent has
failed yields a failed one. -/
theorem derived_wrappers_clone_failure_at_creation (r : Response) (name : String)
    (d : JSONDecoder) (m : String) :
    ((r.Headers).chain.failed = r.chain.failed) ∧
    ((r.Header name).chain.failed = r.chain.failed) ∧
    ((r.Body).2.chain.failed = r.chain.failed) ∧
    (r.chain.failed = true → (r.JSON d).2.chain.isFailed = true) ∧
    (r.chain.failed = false →
      (r.Headers).chain.isFailed = false ∧
      (Response.Headers { r with chain := r.chain.fail m }).chain.isFailed = true) := by
  refine ⟨?_, ?_, ?_, ?_, ?_⟩
  · unfold Response.Headers
    by_cases h : r.chain.failed <;> simp [h, Chain.clone]
  · unfold Response.Header
    by_cases h : r.chain.failed <;> simp [h, Chain.clone]
  · unfold Response.Body
    by_cases h : r.chain.failed <;>
      simp [h, Chain.clone, getContent_chain]
  · intro h
    unfold Response.JSON
    simp [h, Chain.clone, Chain.isFailed]
  · intro h
    unfold Response.Headers
    simp [h, Chain.clone, Chain.isFailed, Chain.fail]

/-- Closed instance of `derived_wrappers_clone_failure_at_creation`: on
a concrete already-failed response with a nil raw response every derived
wrapper is failed immediately, and on a concrete fresh response the
derived wrapper is unfailed while one derived after a failure is
failed. -/
theorem derived_wrappers_clone_failure_at_creation_witness :
    (((Response.mk (makeChain.fail "boom") none none).Headers).chain.failed = true) ∧
    (((Response.mk (makeChain.fail "boom") none none).Header "foo").chain.failed = true) ∧
    (((Response.mk (makeChain.fail "boom") none none).Body).2.chain.failed = true) ∧
    (((Response.mk (makeChain.fail "boom") none none).JSON (fun _ => none)).2.chain.isFailed = true) ∧
    (((NewResponse none).Headers).chain.isFailed = false) ∧
    ((Response.Headers { NewResponse none with chain := (NewResponse none).chain.fail "later" }).chain.isFailed = true) := by
  have h1 := derived_wrappers_clone_failure_at_creation (Response.mk (makeChain.fail "boom") none none)
    "foo" (fun _ => none) "later"
  have h2 := derived_wrappers_clone_failure_at_creation (NewResponse none)
    "foo" (fun _ => none) "later"
  exact ⟨h1.1.trans (by decide), h1.2.1.trans (by decide), h1.2.2.1.trans (by decide),
    h1.2.2.2.1 rfl, (h2.2.2.2.2 rfl).1, (h2.2.2.2.2 rfl).2⟩

/-- C2: for an unfailed response, `ContentTypeJSON()` succeeds exactly
when the Content-Type value passes the parsing rule (split on `;`, trim,
media type case-sensitively `application/json`, charset — when present —
case-insensitively `utf-8`); representative header values show the rule:
missing/empty and wrong-charset values fail, charset case does not
matter, media-type case does. -/
theorem contentTypeJSON_rule (r : Response) (h : r.chain.failed = false) :
    ((r.ContentTypeJSON).chain.isFailed = false ↔
      checkJSONContentType (headerGet r.raw "Content-Type") = true) ∧
    checkJSONContentType "application/json" = true ∧
    checkJSONContentType "application/json; charset=utf-8" = true ∧
    checkJSONContentType "application/json; charset=UTF-8" = true ∧
    checkJSONContentType "application/json;charset=utf-8" = true ∧
    checkJSONContentType "application/json; charset=bad" = false ∧
    checkJSONContentType "" = false ∧
    checkJSONContentType "text/plain" = false ∧
    checkJSONContentType "Application/json" = false := by
  refine ⟨?_, by decide, by decide, by decide, by decide, by decide, by decide,
    by decide, by decide⟩
  unfold Response.ContentTypeJSON
  by_cases hc : checkJSONContentType (headerGet r.raw "Content-Type") <;>
    simp [h, hc, Chain.isFailed, Chain.fail]

/-- Closed instance of `contentTypeJSON_rule`: a utf-8 JSON content type
passes and a bad charset fails. -/
theorem contentTypeJSON_rule_witness :
    ((NewResponse (some { statusCode := 200, headers := [("Content-Type", ["application/json; charset=utf-8"])], body := none })).ContentTypeJSON).chain.isFailed = false ∧
    ((NewResponse (some { statusCode := 200, headers := [("Content-Type", ["application/json; charset=bad"])], body := none })).ContentTypeJSON).chain.isFailed = true := by
  have h1 := contentTypeJSON_rule (NewResponse (some { statusCode := 200, headers := [("Content-Type", ["application/json; charset=utf-8"])], body := none })) rfl
  have h2 := contentTypeJSON_rule (NewResponse (some { statusCode := 200, headers := [("Content-Type", ["application/json; charset=bad"])], body := none })) rfl
  refine ⟨h1.1.mpr (by decide), ?_⟩
  rcases Bool.eq_false_or_eq_true ((NewResponse (some { statusCode := 200, headers := [("Content-Type", ["application/json; charset=bad"])], body := none })).ContentTypeJSON).chain.isFailed with hf | hf
  · exact hf
  · exact absurd (h2.1.mp hf) (by decide)

/-- C4: for an unfailed response, `NoContent()` succeeds exactly when
the cached body text is empty and the Content-Type header is absent or
empty; on violation the chain is failed and exactly one failure is
reported. -/
theorem noContent_rule (r : Response) (h : r.chain.failed = false) :
    ((r.NoContent).chain.isFailed = false ↔
      ((r.getContent).2 = "" ∧ headerGet r.raw "Content-Type" = "")) ∧
    ((r.NoContent).chain.isFailed = true →
      (r.NoContent).chain.reports.length = r.chain.reports.length + 1) := by
  have hch : (r.getContent).1.chain = r.chain := getContent_chain r
  unfold Response.NoContent
  rcases hg : r.getContent with ⟨r2, text⟩
  rw [hg] at hch
  have hch2 : r2.chain = r.chain := by simpa using hch
  by_cases hct : headerGet r.raw "Content-Type" = "" <;>
    by_cases htx : text = "" <;>
      simp [h, hg, hct, htx, hch2, Chain.isFailed, Chain.fail]

/-- Closed instance of `noContent_rule`: an empty body with an empty
Content-Type passes, and a non-empty body fails with one report. -/
theorem noContent_rule_witness :
    ((NewResponse (some { statusCode := 200, headers := [("Content-Type", [""])], body := some { data := "", consumed := false } })).NoContent).chain.isFailed = false ∧
    ((NewResponse (some { statusCode := 200, headers := [], body := some { data := "body", consumed := false } })).NoContent).chain.isFailed = true ∧
    ((NewResponse (some { statusCode := 200, headers := [], body := some { data := "body", consumed := false } })).NoContent).chain.reports.length = (NewResponse (some { statusCode := 200, headers := [], body := some { data := "body", consumed := false } })).chain.reports.length + 1 := by
  have h1 := noContent_rule (NewResponse (some { statusCode := 200, headers := [("Content-Type", [""])], body := some { data := "", consumed := false } })) rfl
  have h2 := noContent_rule (NewResponse (some { statusCode := 200, headers := [], body := some { data := "body", consumed := false } })) rfl
  have hfail : ((NewResponse (some { statusCode := 200, headers := [], body := some { data := "body", consumed := false } })).NoContent).chain.isFailed = true := by
    rcases Bool.eq_false_or_eq_true ((NewResponse (some { statusCode := 200, headers := [], body := some { data := "body", consumed := false } })).NoContent).chain.isFailed with hf | hf
    · exact hf
    · exact absurd (h2.1.mp hf) (by decide)
  exact ⟨h1.1.mpr (by decide), hfail, h2.2 hfail⟩

/-- C7: for an unfailed response, `Header(name)` wraps the first value
of the header looked up case-insensitively (lookup depends only on the
lowercased name), the wrapper starts unfailed even when the header is
absent, and absence only becomes a failure when a non-empty expectation
is asserted against the wrapper (`Empty()` passes, `Equal e` with
non-empty `e` fails). -/
theorem header_lookup_rule (r : Response) (name name2 e : String)
    (h : r.chain.failed = false) :
    ((r.Header name).raw = headerGet r.raw name) ∧
    ((r.Header name).chain.isFailed = false) ∧
    (lowerStr name = lowerStr name2 → headerGet r.raw name = headerGet r.raw name2) ∧
    (headerGet r.raw name = "" → ((r.Header name).Empty).chain.isFailed = false) ∧
    (headerGet r.raw name = "" → e ≠ "" → ((r.Header name).Equal e).chain.isFailed = true) := by
  refine ⟨?_, ?_, ?_, ?_, ?_⟩
  · unfold Response.Header
    simp [h]
  · unfold Response.Header
    simp [h, Chain.clone, Chain.isFailed]
  · intro hname
    unfold headerGet
    rcases r.raw with _ | rr
    · rfl
    · simp only [hname]
  · intro habs
    unfold Response.Header StringWrapper.Empty
    simp [h, Chain.clone, Chain.isFailed, habs]
  · intro habs hne
    unfold Response.Header StringWrapper.Equal
    have hne2 : ¬ ("" : String) = e := fun heq => hne heq.symm
    simp [h, Chain.clone, Chain.isFailed, Chain.fail, habs, hne2]

/-- Closed instance of `header_lookup_rule`: a differently-cased lookup
finds the header, and an absent header gives an unfailed empty wrapper
that passes `Empty()` and fails `Equal "x"`. -/
theorem header_lookup_rule_witness :
    ((NewResponse (some { statusCode := 200, headers := [("First-Header", ["foo"])], body := none })).Header "first-header").raw = headerGet (some { statusCode := 200, headers := [("First-Header", ["foo"])], body := none }) "first-header" ∧
    headerGet (some { statusCode := 200, headers := [("First-Header", ["foo"])], body := none }) "FIRST-HEADER" = headerGet (some { statusCode := 200, headers := [("First-Header", ["foo"])], body := none }) "First-Header" ∧
    ((NewResponse (some { statusCode := 200, headers := [("First-Header", ["foo"])], body := none })).Header "Bad-Header").chain.isFailed = false ∧
    (((NewResponse (some { statusCode := 200, headers := [("First-Header", ["foo"])], body := none })).Header "Bad-Header").Empty).chain.isFailed = false ∧
    (((NewResponse (some { statusCode := 200, headers := [("First-Header", ["foo"])], body := none })).Header "Bad-Header").Equal "x").chain.isFailed = true := by
  have h1 := header_lookup_rule (NewResponse (some { statusCode := 200, headers := [("First-Header", ["foo"])], body := none })) "first-header" "x" "x" rfl
  have h2 := header_lookup_rule (NewResponse (some { statusCode := 200, headers := [("First-Header", ["foo"])], body := none })) "FIRST-HEADER" "First-Header" "x" rfl
  have h3 := header_lookup_rule (NewResponse (some { statusCode := 200, headers := [("First-Header", ["foo"])], body := none })) "Bad-Header" "x" "x" rfl
  exact ⟨h1.1, h2.2.2.1 (by decide), h3.2.1, h3.2.2.2.1 (by decide),
    h3.2.2.2.2 (by decide) (by decide)⟩

/-- C8: for an unfailed response wrapping a raw response,
`Headers().Equal(H)` succeeds exactly when `H` equals the raw header
multimap (same keys, value sequences compared positionally), and the
assertion returns a wrapper over the same header data regardless of
outcome, so chaining remains possible. -/
theorem headers_equal_rule (r : Response) (rr : RawResponse)
    (hm : List (String × List String))
    (h : r.chain.failed = false) (hr : r.raw = some rr) :
    (((r.Headers).Equal hm).chain.isFailed = false ↔ rr.headers = hm) ∧
    ((r.Headers).Equal hm).raw = rr.headers := by
  unfold Response.Headers HeadersWrapper.Equal
  by_cases he : rr.headers = hm <;>
    simp [h, hr, he, Chain.clone, Chain.isFailed, Chain.fail]

/-- Closed instance of `headers_equal_rule`: equality with the exact
header map passes; a different map fails but still returns the header
data. -/
theorem headers_equal_rule_witness :
    (((NewResponse (some { statusCode := 200, headers := [("First-Header", ["foo"]), ("Second-Header", ["bar"])], body := none })).Headers).Equal [("First-Header", ["foo"]), ("Second-Header", ["bar"])]).chain.isFailed = false ∧
    (((NewResponse (some { statusCode := 200, headers := [("First-Header", ["foo"]), ("Second-Header", ["bar"])], body := none })).Headers).Equal []).raw = [("First-Header", ["foo"]), ("Second-Header", ["bar"])] := by
  have h1 := headers_equal_rule (NewResponse (some { statusCode := 200, headers := [("First-Header", ["foo"]), ("Second-Header", ["bar"])], body := none }))
    { statusCode := 200, headers := [("First-Header", ["foo"]), ("Second-Header", ["bar"])], body := none }
    [("First-Header", ["foo"]), ("Second-Header", ["bar"])] rfl rfl
  have h2 := headers_equal_rule (NewResponse (some { statusCode := 200, headers := [("First-Header", ["foo"]), ("Second-Header", ["bar"])], body := none }))
    { statusCode := 200, headers := [("First-Header", ["foo"]), ("Second-Header", ["bar"])], body := none }
    [] rfl rfl
  exact ⟨h1.1.mpr rfl, h2.2⟩

/-- C3: for an unfailed response, `JSON()` fails the response chain and
returns the absent sentinel whenever the content-type check fails or the
cached body does not decode, and succeeds holding exactly the decoded
tree otherwise. -/
theorem json_rule (r : Response) (d : JSONDecoder) (h : r.chain.failed = false) :
    (checkJSONContentType (headerGet r.raw "Content-Type") = false →
      (r.JSON d).1.chain.isFailed = true ∧ (r.JSON d).2.raw = none ∧
      (r.JSON d).2.chain.isFailed = true) ∧
    (checkJSONContentType (headerGet r.raw "Content-Type") = true →
      (d (r.getContent).2 = none →
        (r.JSON d).1.chain.isFailed = true ∧ (r.JSON d).2.raw = none ∧
        (r.JSON d).2.chain.isFailed = true) ∧
      (∀ v, d (r.getContent).2 = some v →
        (r.JSON d).1.chain.isFailed = false ∧ (r.JSON d).2.raw = some v ∧
        (r.JSON d).2.chain.isFailed = false)) := by
  have hch : (r.getContent).1.chain = r.chain := getContent_chain r
  unfold Response.JSON
  rcases hg : r.getContent with ⟨r2, text⟩
  rw [hg] at hch
  have hch2 : r2.chain = r.chain := by simpa using hch
  constructor
  · intro hc
    simp [h, hc, Chain.isFailed, Chain.fail, Chain.clone]
  · intro hc
    constructor
    · intro hd
      simp [h, hc, hg, hd, hch2, Chain.isFailed, Chain.fail, Chain.clone]
    · intro v hd
      simp [h, hc, hg, hd, hch2, h, Chain.isFailed, Chain.fail, Chain.clone]

/-- Closed instance of `json_rule`: with a decoder recognizing `null`, a
JSON content type and body `null` succeed with the decoded tree; a bad
charset fails with the absent sentinel; an undecodable body fails with
the absent sentinel. -/
theorem json_rule_witness :
    ((NewResponse (some { statusCode := 200, headers := [("Content-Type", ["application/json; charset=utf-8"])], body := some { data := "null", consumed := false } })).JSON (fun s => if s = "null" then some JSONValue.null else none)).1.chain.isFailed = false ∧
    ((NewResponse (some { statusCode := 200, headers := [("Content-Type", ["application/json; charset=utf-8"])], body := some { data := "null", consumed := false } })).JSON (fun s => if s = "null" then some JSONValue.null else none)).2.raw = some JSONValue.null ∧
    ((NewResponse (some { statusCode := 200, headers := [("Content-Type", ["application/json; charset=bad"])], body := some { data := "null", consumed := false } })).JSON (fun s => if s = "null" then some JSONValue.null else none)).1.chain.isFailed = true ∧
    ((NewResponse (some { statusCode := 200, headers := [("Content-Type", ["application/json; charset=bad"])], body := some { data := "null", consumed := false } })).JSON (fun s => if s = "null" then some JSONValue.null else none)).2.raw = none ∧
    ((NewResponse (some { statusCode := 200, headers := [("Content-Type", ["application/json"])], body := some { data := "oops", consumed := false } })).JSON (fun s => if s = "null" then some JSONValue.null else none)).1.chain.isFailed = true ∧
    ((NewResponse (some { statusCode := 200, headers := [("Content-Type", ["application/json"])], body := some { data := "oops", consumed := false } })).JSON (fun s => if s = "null" then some JSONValue.null else none)).2.raw = none := by
  have h1 := json_rule (NewResponse (some { statusCode := 200, headers := [("Content-Type", ["application/json; charset=utf-8"])], body := some { data := "null", consumed := false } })) (fun s => if s = "null" then some JSONValue.null else none) rfl
  have h2 := json_rule (NewResponse (some { statusCode := 200, headers := [("Content-Type", ["application/json; charset=bad"])], body := some { data := "null", consumed := false } })) (fun s => if s = "null" then some JSONValue.null else none) rfl
  have h3 := json_rule (NewResponse (some { statusCode := 200, headers := [("Content-Type", ["application/json"])], body := some { data := "oops", consumed := false } })) (fun s => if s = "null" then some JSONValue.null else none) rfl
  have g1 := (h1.2 (by decide)).2 JSONValue.null rfl
  have g2 := h2.1 (by decide)
  have g3 := (h3.2 (by decide)).1 rfl
  exact ⟨g1.1, g1.2.1, g2.1, g2.2.1, g3.1, g3.2.1⟩

/-- C6: for an unfailed response, `Body()` never fails the chain, wraps
the body text, is idempotent — the second call returns the identical
wrapper and changes no state, so the stream is consumed at most once —
and a nil stream yields the empty string without failing. -/
theorem body_cached_and_read_once (r : Response) (h : r.chain.failed = false) :
    ((r.Body).1.chain = r.chain) ∧
    ((r.Body).2.chain.isFailed = false) ∧
    ((r.Body).1.Body = ((r.Body).1, (r.Body).2)) ∧
    (∀ rr, r.content = none → r.raw = some rr → rr.body = none →
      (r.Body).2.raw = "") := by
  have hch : (r.getContent).1.chain = r.chain := getContent_chain r
  have hcc : (r.getContent).1.content = some (r.getContent).2 := getContent_content r
  unfold Response.Body
  rcases hg : r.getContent with ⟨r2, text⟩
  rw [hg] at hch hcc
  have hch2 : r2.chain = r.chain := by simpa using hch
  have hcc2 : r2.content = some text := by simpa using hcc
  have hr2 : r2.getContent = (r2, text) := getContent_cached r2 text hcc2
  refine ⟨?_, ?_, ?_, ?_⟩
  · simp [h, hg, hch2]
  · simp [h, hg, hch2, Chain.clone, Chain.isFailed]
  · simp [h, hg, hch2, hr2]
  · intro rr hc hra hb
    have htext : r.getContent = ({ r with content := some "" }, "") := by
      unfold Response.getContent
      simp [hc, hra, hb]
    rw [htext] at hg
    have : text = "" := (Prod.mk.injEq _ _ _ _ ▸ hg.symm).2
    simp [h, hg, this]

/-- Closed instance of `body_cached_and_read_once`: a concrete response
with body text `body`, and one with a nil stream. -/
theorem body_cached_and_read_once_witness :
    ((NewResponse (some { statusCode := 200, headers := [], body := some { data := "body", consumed := false } })).Body).1.chain = (NewResponse (some { statusCode := 200, headers := [], body := some { data := "body", consumed := false } })).chain ∧
    ((NewResponse (some { statusCode := 200, headers := [], body := some { data := "body", consumed := false } })).Body).2.chain.isFailed = false ∧
    ((NewResponse (some { statusCode := 200, headers := [], body := some { data := "body", consumed := false } })).Body).1.Body = (((NewResponse (some { statusCode := 200, headers := [], body := some { data := "body", consumed := false } })).Body).1, ((NewResponse (some { statusCode := 200, headers := [], body := some { data := "body", consumed := false } })).Body).2) ∧
    ((NewResponse (some { statusCode := 200, headers := [], body := none })).Body).2.raw = "" := by
  have h1 := body_cached_and_read_once (NewResponse (some { statusCode := 200, headers := [], body := some { data := "body", consumed := false } })) rfl
  have h2 := body_cached_and_read_once (NewResponse (some { statusCode := 200, headers := [], body := none })) rfl
  exact ⟨h1.1, h1.2.1, h1.2.2.1, h2.2.2.2 { statusCode := 200, headers := [], body := none } rfl rfl rfl⟩

/-- C10: on a response whose chain is already failed and whose raw HTTP
response is nil, every accessor still returns a wrapper (with the failed
chain), and `Status`, `NoContent`, `ContentTypeJSON`, `Body`, `JSON`
leave the response untouched: no operation dereferences the absent raw
response, so all operations are total. -/
theorem failed_nil_raw_operations_total (c : Chain) (name : String)
    (d : JSONDecoder) (s : Int) (h : c.failed = true) :
    ((Response.mk c none none).Headers).chain.isFailed = true ∧
    ((Response.mk c none none).Header name).chain.isFailed = true ∧
    ((Response.mk c none none).Body).2.chain.isFailed = true ∧
    ((Response.mk c none none).JSON d).2.chain.isFailed = true ∧
    (Response.mk c none none).Status s = Response.mk c none none ∧
    (Response.mk c none none).NoContent = Response.mk c none none ∧
    (Response.mk c none none).ContentTypeJSON = Response.mk c none none ∧
    ((Response.mk c none none).Body).1 = Response.mk c none none ∧
    ((Response.mk c none none).JSON d).1 = Response.mk c none none := by
  unfold Response.Headers Response.Header Response.Body Response.JSON
    Response.Status Response.NoContent Response.ContentTypeJSON
  simp [h, Chain.clone, Chain.isFailed]

/-- Closed instance of `failed_nil_raw_operations_total`, mirroring the
repository test: a chain failed with message `fail`, a nil raw response,
header name `foo`, status 123. -/
theorem failed_nil_raw_operations_total_witness :
    ((Response.mk (makeChain.fail "fail") none none).Headers).chain.isFailed = true ∧
    ((Response.mk (makeChain.fail "fail") none none).Header "foo").chain.isFailed = true ∧
    ((Response.mk (makeChain.fail "fail") none none).Body).2.chain.isFailed = true ∧
    ((Response.mk (makeChain.fail "fail") none none).JSON (fun _ => none)).2.chain.isFailed = true ∧
    (Response.mk (makeChain.fail "fail") none none).Status 123 = Response.mk (makeChain.fail "fail") none none ∧
    (Response.mk (makeChain.fail "fail") none none).NoContent = Response.mk (makeChain.fail "fail") none none ∧
    (Response.mk (makeChain.fail "fail") none none).ContentTypeJSON = Response.mk (makeChain.fail "fail") none none ∧
    ((Response.mk (makeChain.fail "fail") none none).Body).1 = Response.mk (makeChain.fail "fail") none none ∧
    ((Response.mk (makeChain.fail "fail") none none).JSON (fun _ => none)).1 = Response.mk (makeChain.fail "fail") none none :=
  failed_nil_raw_operations_total (makeChain.fail "fail") "foo" (fun _ => none) 123 rfl
